import Mathlib

/-!
# Verification development for the OlimpoWEB gym-management backend

Shallow embedding of the business-rule layer of the backend (NestJS +
Supabase). Remote-database tables are modelled as Lean lists; each service
method becomes a pure function from its inputs and the current table state
to a result (`Except HttpError _`) and the updated state. Provider and
network failures are outside the model: the store itself is total, so the
only errors are the ones the services construct themselves (validation,
not-found, business rules) plus the client-library row-cardinality errors
of `single()` / `maybeSingle()`, which are modelled explicitly.

Dates are modelled at day granularity (`Day := Nat`, days since an
arbitrary epoch); `Date.setDate(base.getDate() + n)` on a copy of `base`
normalizes to exactly "add `n` days", which is `addDays`. Instants used by
the attendance module are modelled as minutes since the epoch.
-/

namespace Olimpo

/-- An HTTP exception as thrown by the services (`HttpException(message, status)`). -/
structure HttpError where
  status : Nat
  message : String
deriving DecidableEq, Repr

/-- Day-granularity timestamp: days since an arbitrary epoch. -/
abbrev Day := Nat

/-- JS `d.setDate(base.getDate() + n)` where `d` starts as a copy of `base`:
date normalization makes this exactly "base plus `n` days". -/
def addDays (d : Day) (n : Nat) : Day := d + n

/-- Model of the supabase-js `.single()` modifier on a filtered query:
exactly one row is returned, otherwise the client yields an error, which
every call site in this codebase wraps as a 500 `HttpException`. -/
def singleModel {α : Type} (errMsg : String) (l : List α) : Except HttpError α :=
  match l with
  | [x] => Except.ok x
  | _ => Except.error ⟨500, errMsg⟩

/-- Model of the supabase-js `.maybeSingle()` modifier: zero rows give
`null`, one row gives the row, and two or more rows give a client-side
error (code PGRST116) with `data = null`; the call sites in this codebase
ignore that error and read the `null` data, so multiple rows behave as
"no row found". -/
def maybeSingleModel {α : Type} (l : List α) : Option α :=
  match l with
  | [x] => some x
  | _ => none

/-! ## Memberships service (`MembershipsService`, memberships.service.ts) -/

/-- `MembershipType` enum of membership.entity.ts. -/
inductive MembershipType
  | monthly
  | kickboxing
  | quarterly
  | biannual
  | annual
deriving DecidableEq, Repr

/-- `MembershipStatus` enum of membership.entity.ts. -/
inductive MembershipStatus
  | active
  | expired
  | pending
deriving DecidableEq, Repr

/-- A row of the `memberships` table (`Membership` entity). -/
structure Membership where
  id : String
  user_id : String
  type : MembershipType
  status : MembershipStatus
  start_date : Day
  end_date : Day
  days_per_week : Option Nat
  price : Int
  updated_at : Nat
deriving DecidableEq, Repr

/-- `CreateMembershipDto` (create-membership.dto.ts): no `status` and no
`end_date` field can be supplied by the caller. -/
structure CreateMembershipDto where
  user_id : String
  type : MembershipType
  start_date : Day
  days_per_week : Option Nat
  price : Int
deriving DecidableEq, Repr

/-- JS falsiness of the optional numeric `days_per_week`
(`!createMembershipDto.days_per_week`): absent or zero. -/
def isFalsyNum (o : Option Nat) : Bool :=
  match o with
  | none => true
  | some n => n == 0

/-- The end-date computation at the top of `MembershipsService.create`:
`MONTHLY` adds 30 days; `KICKBOXING` first requires `days_per_week` (400
otherwise) and then also adds 30 days; every other type falls through the
`if`/`else if` chain with `endDate` still equal to the copy of
`startDate`. -/
def computeCreateEndDate (dto : CreateMembershipDto) : Except HttpError Day :=
  if dto.type = MembershipType.monthly then
    Except.ok (addDays dto.start_date 30)
  else if dto.type = MembershipType.kickboxing then
    if isFalsyNum dto.days_per_week then
      Except.error ⟨400, "Los días por semana son requeridos para membresías de kickboxing"⟩
    else
      Except.ok (addDays dto.start_date 30)
  else
    Except.ok dto.start_date

/-- `MembershipsService.create`: computes the end date, then inserts the
row with `status: MembershipStatus.ACTIVE` (hard-coded). The thrown
validation error happens before the insert, so the store is unchanged in
that case. `fresh` is the row id generated by the database; `now` is the
insertion timestamp. -/
def MembershipsService.create (fresh : String) (now : Nat) (dto : CreateMembershipDto)
    (s : List Membership) : Except HttpError Membership × List Membership :=
  match computeCreateEndDate dto with
  | Except.error e => (Except.error e, s)
  | Except.ok endDate =>
      let m : Membership :=
        { id := fresh
          user_id := dto.user_id
          type := dto.type
          status := MembershipStatus.active
          start_date := dto.start_date
          end_date := endDate
          days_per_week := dto.days_per_week
          price := dto.price
          updated_at := now }
      (Except.ok m, s ++ [m])

/-- The per-type renewal offset of `MembershipsService.renewMembership`:
monthly/kickboxing +30, quarterly +90, biannual +180, annual +365 days
(the `if`/`else if` chain covers all five enum values). -/
def renewOffset (t : MembershipType) : Nat :=
  match t with
  | MembershipType.monthly => 30
  | MembershipType.kickboxing => 30
  | MembershipType.quarterly => 90
  | MembershipType.biannual => 180
  | MembershipType.annual => 365

/-- `MembershipsService.renewMembership`: fetches the membership with
`.single()` (error when the id does not match exactly one row), adds the
per-type offset to the *stored* `end_date`, and writes back only
`end_date` and `updated_at`. The current date plays no role in the new
end date. -/
def MembershipsService.renewMembership (id : String) (now : Nat)
    (s : List Membership) : Except HttpError Membership × List Membership :=
  match singleModel "Error al obtener la membresía" (s.filter (fun m => m.id == id)) with
  | Except.error e => (Except.error e, s)
  | Except.ok m =>
      let newEndDate := addDays m.end_date (renewOffset m.type)
      let m' := { m with end_date := newEndDate, updated_at := now }
      (Except.ok m', s.map (fun x => if x.id == id then m' else x))

/-! ### Helper lemmas about list-modelled tables -/

/-- Filtering after a keyed in-place update: every row matching `p` is
replaced by the constant row `c` (which itself matches `p`), every other
row is untouched. -/
theorem filter_map_if_eq {α : Type} (p : α → Bool) (c : α) (hc : p c = true) :
    ∀ s : List α,
      (s.map (fun x => if p x then c else x)).filter p = (s.filter p).map (fun _ => c) := by
  intro s
  induction s with
  | nil => rfl
  | cons a t ih =>
    by_cases hpa : p a = true
    · simp [hpa, hc, ih]
    · simp [List.filter_cons, hpa, ih]

/-- One renewal step, fully evaluated, when the id matches exactly one row. -/
theorem renew_step (s : List Membership) (id : String) (m : Membership) (now : Nat)
    (h : s.filter (fun x => x.id == id) = [m]) :
    MembershipsService.renewMembership id now s =
      (Except.ok { m with end_date := addDays m.end_date (renewOffset m.type), updated_at := now },
       s.map (fun x => if x.id == id then
         { m with end_date := addDays m.end_date (renewOffset m.type), updated_at := now } else x)) := by
  unfold MembershipsService.renewMembership
  rw [h]
  rfl

/-- **C3**: renewing a membership whose stored end date is `E` sets the new
end date to `E` plus the per-type offset, independently of the current
date (`now1`, `now2` are arbitrary and only land in `updated_at`), and
renewing twice in a row yields `E + 2 * offset(type)`. -/
theorem renewMembership_extends_stored_end_date
    (s : List Membership) (id : String) (m : Membership) (now1 now2 : Nat)
    (h : s.filter (fun x => x.id == id) = [m]) :
    ∃ m1 s1,
      MembershipsService.renewMembership id now1 s = (Except.ok m1, s1) ∧
      m1.end_date = addDays m.end_date (renewOffset m.type) ∧
      ∃ m2 s2,
        MembershipsService.renewMembership id now2 s1 = (Except.ok m2, s2) ∧
        m2.end_date = m.end_date + 2 * renewOffset m.type := by
  have hmem : m ∈ s.filter (fun x => x.id == id) := by
    rw [h]; exact List.mem_singleton.mpr rfl
  have hmid : (m.id == id) = true := (List.mem_filter.mp hmem).2
  have h1 := renew_step s id m now1 h
  refine ⟨_, _, h1, rfl, ?_⟩
  have hfil : (s.map (fun x => if x.id == id then
      { m with end_date := addDays m.end_date (renewOffset m.type), updated_at := now1 }
      else x)).filter (fun x => x.id == id)
      = [{ m with end_date := addDays m.end_date (renewOffset m.type), updated_at := now1 }] := by
    rw [filter_map_if_eq (fun x => x.id == id)
      { m with end_date := addDays m.end_date (renewOffset m.type), updated_at := now1 }
      hmid s, h]
    rfl
  have h2 := renew_step _ id _ now2 hfil
  refine ⟨_, _, h2, ?_⟩
  show addDays (addDays m.end_date (renewOffset m.type)) (renewOffset m.type)
      = m.end_date + 2 * renewOffset m.type
  unfold addDays
  ring

/-- Witness for C3 at a concrete monthly membership with end date 10:
the two renewals produce end dates 40 and 70. -/
theorem renewMembership_extends_stored_end_date_witness :
    ∃ m1 s1,
      MembershipsService.renewMembership "a" 5
        [{ id := "a", user_id := "u", type := MembershipType.monthly,
           status := MembershipStatus.active, start_date := 0, end_date := 10,
           days_per_week := none, price := 100, updated_at := 0 }] = (Except.ok m1, s1) ∧
      m1.end_date = 40 ∧
      ∃ m2 s2,
        MembershipsService.renewMembership "a" 6 s1 = (Except.ok m2, s2) ∧
        m2.end_date = 70 := by
  obtain ⟨m1, s1, h1, he1, m2, s2, h2, he2⟩ :=
    renewMembership_extends_stored_end_date
      [{ id := "a", user_id := "u", type := MembershipType.monthly,
         status := MembershipStatus.active, start_date := 0, end_date := 10,
         days_per_week := none, price := 100, updated_at := 0 }] "a"
      { id := "a", user_id := "u", type := MembershipType.monthly,
        status := MembershipStatus.active, start_date := 0, end_date := 10,
        days_per_week := none, price := 100, updated_at := 0 } 5 6 (by decide)
  exact ⟨m1, s1, h1, by simpa using he1, m2, s2, h2, by simpa using he2⟩

/-- **C1**: the stated end-date law fails on the code: `create` only adds
an offset for `monthly` and `kickboxing`; for `quarterly` (and `biannual`,
`annual`) the `if`/`else if` chain has no branch, so the stored end date
equals the start date instead of start plus 90 days. Evaluated at a
concrete quarterly creation with start day 100. -/
theorem create_quarterly_end_date_equals_start_date :
    ((MembershipsService.create "m1" 0
        { user_id := "u1", type := MembershipType.quarterly, start_date := 100,
          days_per_week := none, price := 5000 } []).1).map Membership.end_date
      = Except.ok 100
    ∧ (100 : Nat) ≠ addDays 100 90 := by
  exact ⟨rfl, by decide⟩

/-- **C5**: a kickboxing creation without `days_per_week` fails with a 400
validation error and leaves the table untouched; every successful creation
stores `status = active` (the DTO has no status field and the insert
hard-codes `MembershipStatus.ACTIVE`). -/
theorem create_kickboxing_validation_and_forced_active_status
    (fresh : String) (now : Nat) (dto : CreateMembershipDto) (s : List Membership) :
    (dto.type = MembershipType.kickboxing → dto.days_per_week = none →
      (MembershipsService.create fresh now dto s).1
          = Except.error ⟨400, "Los días por semana son requeridos para membresías de kickboxing"⟩ ∧
      (MembershipsService.create fresh now dto s).2 = s)
    ∧ (∀ m, (MembershipsService.create fresh now dto s).1 = Except.ok m →
        m.status = MembershipStatus.active) := by
  constructor
  · intro ht hd
    constructor <;>
      simp [MembershipsService.create, computeCreateEndDate, ht, hd, isFalsyNum]
  · intro m hm
    cases hcE : computeCreateEndDate dto with
    | error e => simp [MembershipsService.create, hcE] at hm
    | ok d =>
      simp [MembershipsService.create, hcE] at hm
      rw [← hm]

/-- Witness for C5: a concrete kickboxing request without `days_per_week`
is rejected with status 400 and inserts nothing, and a concrete monthly
creation succeeds with status forced to `active`. -/
theorem create_kickboxing_validation_witness :
    ((MembershipsService.create "m1" 0
        { user_id := "u1", type := MembershipType.kickboxing, start_date := 0,
          days_per_week := none, price := 3000 } []).1
      = Except.error ⟨400, "Los días por semana son requeridos para membresías de kickboxing"⟩
    ∧ (MembershipsService.create "m1" 0
        { user_id := "u1", type := MembershipType.kickboxing, start_date := 0,
          days_per_week := none, price := 3000 } []).2 = [])
    ∧ ∀ m, (MembershipsService.create "m2" 0
        { user_id := "u1", type := MembershipType.monthly, start_date := 0,
          days_per_week := none, price := 3000 } []).1 = Except.ok m →
        m.status = MembershipStatus.active := by
  constructor
  · exact (create_kickboxing_validation_and_forced_active_status "m1" 0
      { user_id := "u1", type := MembershipType.kickboxing, start_date := 0,
        days_per_week := none, price := 3000 } []).1 rfl rfl
  · exact (create_kickboxing_validation_and_forced_active_status "m2" 0
      { user_id := "u1", type := MembershipType.monthly, start_date := 0,
        days_per_week := none, price := 3000 } []).2

/-! ## Attendance service (`AttendanceService`, attendance.service.ts,
second snapshot: the variant with the same-day duplicate check). Instants
are minutes since the epoch; `today.setHours(0,0,0,0)` becomes `dayStart`
and `tomorrow` is `dayStart + minutesPerDay`. -/

def minutesPerDay : Nat := 1440

/-- `new Date(now)` with `setHours(0,0,0,0)`: the start of the day of `now`. -/
def dayStart (t : Nat) : Nat := t / minutesPerDay * minutesPerDay

/-- A row of the `attendances` table (`Attendance` entity). -/
structure Attendance where
  id : String
  user_id : String
  membership_id : Option String
  check_in_time : Nat
  check_out_time : Option Nat
deriving DecidableEq, Repr

/-- `CreateAttendanceDto` (create-attendance.dto.ts). -/
structure CreateAttendanceDto where
  user_id : String
  membership_id : Option String
  check_in_time : Option Nat
deriving DecidableEq, Repr

/-- The tables the attendance service touches: `users` (only row existence
matters here, so ids suffice), `memberships` and `attendances`. -/
structure AttState where
  users : List String
  memberships : List Membership
  attendances : List Attendance
deriving DecidableEq, Repr

/-- The same-day filter of `AttendanceService.create`:
`user_id = dto.user_id`, `check_in_time >= today` and `< tomorrow`. -/
def sameDayPred (uid : String) (now : Nat) (a : Attendance) : Bool :=
  a.user_id == uid
    && decide (dayStart now ≤ a.check_in_time)
    && decide (a.check_in_time < dayStart now + minutesPerDay)

/-- Membership resolution in `AttendanceService.create`: the explicit
`membership_id` if given, else the user's active membership, else the
user's first membership, else none. -/
def resolveMembershipId (dto : CreateAttendanceDto) (memberships : List Membership) :
    Option String :=
  match dto.membership_id with
  | some mid => some mid
  | none =>
      let ms := memberships.filter (fun m => m.user_id == dto.user_id)
      match ms.find? (fun m => m.status == MembershipStatus.active) with
      | some am => some am.id
      | none => ms.head?.map (fun m => m.id)

/-- `AttendanceService.create` (same-day-check variant): verify the user
exists (404 otherwise); look up today's attendance for the user with
`.maybeSingle()` (a multi-row result is a client error that the code logs
and treats as "none"); if an open row is found return it without
inserting; otherwise resolve a membership id and insert a new row with
`check_in_time = dto.check_in_time ?? now`. Insert failures and the
retry-without-`membership_id` path are provider errors outside the model
(the modelled store is total). -/
def AttendanceService.create (fresh : String) (now : Nat) (dto : CreateAttendanceDto)
    (st : AttState) : Except HttpError Attendance × AttState :=
  match singleModel "Usuario no encontrado" (st.users.filter (fun u => u == dto.user_id)) with
  | Except.error _ => (Except.error ⟨404, "Usuario no encontrado"⟩, st)
  | Except.ok _ =>
      let insertRow : Except HttpError Attendance × AttState :=
        let membershipId := resolveMembershipId dto st.memberships
        let row : Attendance :=
          { id := fresh
            user_id := dto.user_id
            membership_id := match dto.membership_id with
              | some x => some x
              | none => membershipId
            check_in_time := dto.check_in_time.getD now
            check_out_time := none }
        (Except.ok row, { st with attendances := st.attendances ++ [row] })
      match maybeSingleModel (st.attendances.filter (sameDayPred dto.user_id now)) with
      | some a =>
          if a.check_out_time = none then (Except.ok a, st)
          else insertRow
      | none => insertRow

/-- `AttendanceService.findOne`: `.single()` lookup by id; a missing row is
a client error surfaced as a 500 (the 404 branch after it is dead code). -/
def AttendanceService.findOne (id : String) (attendances : List Attendance) :
    Except HttpError Attendance :=
  singleModel "Error al obtener la asistencia" (attendances.filter (fun a => a.id == id))

/-- `AttendanceService.checkOut`: fetch the attendance; reject with 400 if
`check_out_time` is already set; otherwise set it to now. -/
def AttendanceService.checkOut (id : String) (now : Nat)
    (attendances : List Attendance) : Except HttpError Attendance × List Attendance :=
  match AttendanceService.findOne id attendances with
  | Except.error e => (Except.error e, attendances)
  | Except.ok a =>
      if a.check_out_time.isSome then
        (Except.error ⟨400, "La salida ya ha sido registrada"⟩, attendances)
      else
        let a' := { a with check_out_time := some now }
        (Except.ok a', attendances.map (fun x => if x.id == id then a' else x))

/-- One check-out step on an open attendance, fully evaluated. -/
theorem checkOut_step_open (s : List Attendance) (id : String) (a : Attendance) (now : Nat)
    (h : s.filter (fun x => x.id == id) = [a]) (hopen : a.check_out_time = none) :
    AttendanceService.checkOut id now s =
      (Except.ok { a with check_out_time := some now },
       s.map (fun x => if x.id == id then { a with check_out_time := some now } else x)) := by
  unfold AttendanceService.checkOut AttendanceService.findOne
  rw [h]
  simp [singleModel, hopen]

/-- One check-out step on an already-checked-out attendance. -/
theorem checkOut_step_closed (s : List Attendance) (id : String) (a : Attendance) (now : Nat)
    (h : s.filter (fun x => x.id == id) = [a]) (hclosed : a.check_out_time.isSome) :
    AttendanceService.checkOut id now s =
      (Except.error ⟨400, "La salida ya ha sido registrada"⟩, s) := by
  unfold AttendanceService.checkOut AttendanceService.findOne
  rw [h]
  simp [singleModel, hclosed]

/-- **C4**: on an attendance without `check_out_time`, the first check-out
succeeds and sets `check_out_time`; a second check-out on the resulting
state fails with the 400 "already checked out" error and leaves the table
(hence the stored `check_out_time`) unchanged. -/
theorem checkOut_second_call_rejected
    (s : List Attendance) (id : String) (a : Attendance) (now1 now2 : Nat)
    (h : s.filter (fun x => x.id == id) = [a])
    (hopen : a.check_out_time = none) :
    ∃ a1 s1,
      AttendanceService.checkOut id now1 s = (Except.ok a1, s1) ∧
      a1.check_out_time = some now1 ∧
      s1.filter (fun x => x.id == id) = [a1] ∧
      AttendanceService.checkOut id now2 s1
        = (Except.error ⟨400, "La salida ya ha sido registrada"⟩, s1) := by
  have hmem : a ∈ s.filter (fun x => x.id == id) := by
    rw [h]; exact List.mem_singleton.mpr rfl
  have haid : (a.id == id) = true := (List.mem_filter.mp hmem).2
  have h1 := checkOut_step_open s id a now1 h hopen
  have hfil : (s.map (fun x => if x.id == id then { a with check_out_time := some now1 }
      else x)).filter (fun x => x.id == id) = [{ a with check_out_time := some now1 }] := by
    rw [filter_map_if_eq (fun x => x.id == id) { a with check_out_time := some now1 } haid s, h]
    rfl
  refine ⟨{ a with check_out_time := some now1 }, _, h1, rfl, hfil, ?_⟩
  exact checkOut_step_closed _ id { a with check_out_time := some now1 } now2 hfil rfl

/-- Witness for C4 at a concrete open attendance. -/
theorem checkOut_second_call_rejected_witness :
    ∃ a1 s1,
      AttendanceService.checkOut "a1" 50
        [{ id := "a1", user_id := "u", membership_id := none,
           check_in_time := 10, check_out_time := none }] = (Except.ok a1, s1) ∧
      a1.check_out_time = some 50 ∧
      s1.filter (fun x => x.id == "a1") = [a1] ∧
      AttendanceService.checkOut "a1" 60 s1
        = (Except.error ⟨400, "La salida ya ha sido registrada"⟩, s1) :=
  checkOut_second_call_rejected
    [{ id := "a1", user_id := "u", membership_id := none,
       check_in_time := 10, check_out_time := none }] "a1"
    { id := "a1", user_id := "u", membership_id := none,
      check_in_time := 10, check_out_time := none } 50 60 (by decide) rfl

/-- A same-day attendance already checked out (check-in 2900, day 2880–4319). -/
def exClosedAtt : Attendance :=
  { id := "a1", user_id := "u", membership_id := none
    check_in_time := 2900, check_out_time := some 2950 }

/-- A same-day attendance still open (check-in 2960, day 2880–4319). -/
def exOpenAtt : Attendance :=
  { id := "a2", user_id := "u", membership_id := none
    check_in_time := 2960, check_out_time := none }

/-- A state in which user `u` has both same-day rows above. -/
def exTwoRowState : AttState :=
  { users := ["u"], memberships := [], attendances := [exClosedAtt, exOpenAtt] }

/-- The check-in request of user `u` with no explicit membership or time. -/
def exCheckInDto : CreateAttendanceDto :=
  { user_id := "u", membership_id := none, check_in_time := none }

/-- The row that `create` actually inserts in the counterexample. -/
def exInsertedAtt : Attendance :=
  { id := "a3", user_id := "u", membership_id := none
    check_in_time := 3000, check_out_time := none }

/-- **C2** counterexample: with two same-day attendance rows (the earlier
one checked out, the later one still open), the `.maybeSingle()` lookup
errors on the multi-row result, the code treats that as "no existing row"
and inserts a third row instead of returning the open one. Here `now =
3000` (day start 2880): both rows are same-day, row `exOpenAtt` is open,
yet create returns a brand-new row and grows the table to 3 rows. -/
theorem same_day_second_checkin_counterexample :
    sameDayPred "u" 3000 exOpenAtt = true
    ∧ exOpenAtt.check_out_time = none
    ∧ exOpenAtt ∈ exTwoRowState.attendances
    ∧ (AttendanceService.create "a3" 3000 exCheckInDto exTwoRowState).1
        = Except.ok exInsertedAtt
    ∧ (AttendanceService.create "a3" 3000 exCheckInDto exTwoRowState).2.attendances.length
        = 3 := by
  refine ⟨by decide, rfl, by decide, rfl, rfl⟩

/-- **C2** (amended): when the user exists and has *exactly one* attendance
row created today, a check-in returns that row unchanged without inserting
if it is still open, and inserts a fresh row (open, `check_in_time =
dto.check_in_time ?? now`) if the existing row is already checked out. -/
theorem same_day_checkin_with_unique_row
    (fresh : String) (now : Nat) (dto : CreateAttendanceDto) (st : AttState) (a : Attendance)
    (hu : st.users.filter (fun u => u == dto.user_id) = [dto.user_id])
    (hday : st.attendances.filter (sameDayPred dto.user_id now) = [a]) :
    (a.check_out_time = none →
      AttendanceService.create fresh now dto st = (Except.ok a, st))
    ∧ (a.check_out_time.isSome →
      ∃ row, AttendanceService.create fresh now dto st
          = (Except.ok row, { st with attendances := st.attendances ++ [row] })
        ∧ row.id = fresh ∧ row.user_id = dto.user_id
        ∧ row.check_in_time = dto.check_in_time.getD now
        ∧ row.check_out_time = none) := by
  constructor
  · intro hopen
    unfold AttendanceService.create
    rw [hu, hday]
    simp [singleModel, maybeSingleModel, hopen]
  · intro hclosed
    refine ⟨{ id := fresh, user_id := dto.user_id,
              membership_id := (match dto.membership_id with
                | some x => some x
                | none => resolveMembershipId dto st.memberships),
              check_in_time := dto.check_in_time.getD now,
              check_out_time := none }, ?_, rfl, rfl, rfl, rfl⟩
    unfold AttendanceService.create
    rw [hu, hday]
    have hne : a.check_out_time ≠ none := by
      cases hx : a.check_out_time with
      | none => rw [hx] at hclosed; simp at hclosed
      | some v => simp
    simp [singleModel, maybeSingleModel, hne, resolveMembershipId]

/-- A state in which user `u` has a single open same-day row. -/
def exOneOpenState : AttState :=
  { users := ["u"], memberships := [], attendances := [exOpenAtt] }

/-- A state in which user `u` has a single checked-out same-day row. -/
def exOneClosedState : AttState :=
  { users := ["u"], memberships := [], attendances := [exClosedAtt] }

/-- Witness for the amended C2: with a single open same-day row the
check-in returns it and inserts nothing; with a single checked-out
same-day row the check-in inserts a fresh open row. -/
theorem same_day_checkin_with_unique_row_witness :
    (AttendanceService.create "b" 3000 exCheckInDto exOneOpenState
      = (Except.ok exOpenAtt, exOneOpenState))
    ∧ ∃ row,
        AttendanceService.create "b" 3000 exCheckInDto exOneClosedState
          = (Except.ok row,
             { exOneClosedState with
                attendances := exOneClosedState.attendances ++ [row] })
        ∧ row.id = "b" ∧ row.user_id = "u" ∧ row.check_in_time = 3000
        ∧ row.check_out_time = none := by
  constructor
  · exact (same_day_checkin_with_unique_row "b" 3000 exCheckInDto exOneOpenState exOpenAtt
      (by decide) (by decide)).1 rfl
  · obtain ⟨row, h1, h2, h3, h4, h5⟩ :=
      (same_day_checkin_with_unique_row "b" 3000 exCheckInDto exOneClosedState exClosedAtt
        (by decide) (by decide)).2 rfl
    exact ⟨row, h1, h2, h3, h4, h5⟩

/-! ## Blog service (`BlogService`, blog.service.ts) -/

/-- `PostStatus` enum of post.entity.ts. -/
inductive PostStatus
  | draft
  | published
  | archived
deriving DecidableEq, Repr

/-- A row of the `blog_posts` table (boolean `published` schema variant,
the one this service reads and writes). -/
structure Post where
  id : String
  author_id : String
  title : String
  slug : String
  content : String
  image_url : Option String
  excerpt : String
  tags : List String
  published : Bool
deriving DecidableEq, Repr

/-- `CreatePostDto` (create-post.dto.ts); `status` defaults to `DRAFT`. -/
structure CreatePostDto where
  title : String
  content : String
  image_url : Option String
  tags : Option (List String)
  status : PostStatus
deriving DecidableEq, Repr

/-- `UpdatePostDto` (update-post.dto.ts): every field optional; an absent
field is dropped from the update payload and leaves the column unchanged. -/
structure UpdatePostDto where
  title : Option String
  content : Option String
  image_url : Option String
  tags : Option (List String)
  status : Option PostStatus
deriving DecidableEq, Repr

/-- Splits a character list into space-separated words, dropping empty
runs; the accumulator holds the current word reversed. -/
def slugWordsAux : List Char → List Char → List (List Char)
  | [], acc => if acc.isEmpty then [] else [acc.reverse]
  | c :: rest, acc =>
      if c == ' ' then
        if acc.isEmpty then slugWordsAux rest []
        else acc.reverse :: slugWordsAux rest []
      else slugWordsAux rest (c :: acc)

/-- Joins words with single hyphens. -/
def hyphenJoin : List (List Char) → List Char
  | [] => []
  | [w] => w
  | w :: ws => w ++ '-' :: hyphenJoin ws

/-- Model of the external `slugify` library with `{ lower: true, strict:
true }`, restricted to ASCII input: drop characters that are neither
alphanumeric nor spaces, lowercase, trim, collapse runs of spaces into
single `-`. Only its functional behavior (same title, same slug) matters
for the properties below. -/
def slugify (s : String) : String :=
  let kept := s.toList.filter (fun c => c.isAlphanum || c == ' ')
  let lowered := kept.map Char.toLower
  String.mk (hyphenJoin (slugWordsAux lowered []))

/-- `BlogService.create`: slugify the title; if a post with that slug
already exists (`.maybeSingle()`), append `-${Date.now()}` (`nowTs`);
auto-derive the excerpt from the first 150 characters of the content;
insert with `published = (status === PUBLISHED)`. -/
def BlogService.create (fresh : String) (nowTs : Nat) (authorId : String)
    (dto : CreatePostDto) (s : List Post) : Post × List Post :=
  let slug := slugify dto.title
  let existingPost := maybeSingleModel (s.filter (fun p => p.slug == slug))
  let finalSlug := if existingPost.isSome then slug ++ "-" ++ toString nowTs else slug
  let excerpt := dto.content.take 150 ++ "..."
  let post : Post :=
    { id := fresh
      author_id := authorId
      title := dto.title
      slug := finalSlug
      content := dto.content
      image_url := dto.image_url
      excerpt := excerpt
      tags := dto.tags.getD []
      published := dto.status == PostStatus.published }
  (post, s ++ [post])

/-- `BlogService.update`: fetch the post (`.single()`); when the title is
supplied, re-slugify it and re-check the collision against *other* rows
(`.neq('id', id)`, `.maybeSingle()`), suffixing with `-${Date.now()}` only
on collision; content refreshes the excerpt; a status change is mapped to
the boolean `published` column; absent fields stay unchanged. -/
def BlogService.update (id : String) (nowTs : Nat) (dto : UpdatePostDto)
    (s : List Post) : Except HttpError Post × List Post :=
  match singleModel "Error al obtener el post" (s.filter (fun p => p.id == id)) with
  | Except.error e => (Except.error e, s)
  | Except.ok p =>
      let slugUpd : Option String :=
        match dto.title with
        | some t =>
            let slug := slugify t
            let existingPost := maybeSingleModel
              (s.filter (fun q => q.slug == slug && q.id != id))
            some (if existingPost.isSome then slug ++ "-" ++ toString nowTs else slug)
        | none => none
      let p' : Post :=
        { p with
          title := dto.title.getD p.title
          slug := slugUpd.getD p.slug
          content := dto.content.getD p.content
          image_url := match dto.image_url with
            | some u => some u
            | none => p.image_url
          excerpt := match dto.content with
            | some c => c.take 150 ++ "..."
            | none => p.excerpt
          tags := dto.tags.getD p.tags
          published := match dto.status with
            | some st => st == PostStatus.published
            | none => p.published }
      (Except.ok p', s.map (fun q => if q.id == id then p' else q))

/-- Slug of a freshly created post when the slugified title is free. -/
theorem blog_create_slug_free (fresh : String) (ts : Nat) (auth : String)
    (dto : CreatePostDto) (s : List Post)
    (h : s.filter (fun p => p.slug == slugify dto.title) = []) :
    (BlogService.create fresh ts auth dto s).1.slug = slugify dto.title := by
  simp only [BlogService.create]
  rw [h]
  rfl

/-- Slug of a freshly created post when exactly one row already holds the
slugified title: the timestamp suffix is appended. -/
theorem blog_create_slug_taken (fresh : String) (ts : Nat) (auth : String)
    (dto : CreatePostDto) (s : List Post) (a : Post)
    (h : s.filter (fun p => p.slug == slugify dto.title) = [a]) :
    (BlogService.create fresh ts auth dto s).1.slug
      = slugify dto.title ++ "-" ++ toString ts := by
  simp only [BlogService.create]
  rw [h]
  rfl

/-- A plain slug is never equal to its own timestamp-suffixed variant. -/
theorem slug_ne_suffixed (b : String) (ts : Nat) : b ≠ b ++ "-" ++ toString ts := by
  intro hcon
  have hlen := congrArg String.length hcon
  rw [String.length_append, String.length_append] at hlen
  have hone : ("-" : String).length = 1 := rfl
  omega

/-- **C7**: slug collision handling. (a) Creating a post whose slugified
title is not yet taken stores the plain slug; creating a second post with
the same title on the resulting table stores the timestamp-suffixed slug,
distinct from the first. (b) Updating a post's title so that its slug
collides with exactly one *other* post (`id != self`) yields the suffixed
slug. (c) Updating a post's title to the source text of its own current
slug (no other row holding that slug) keeps the slug unchanged, with no
suffix. -/
theorem blog_slug_collision_resolution
    (s : List Post) (f1 f2 : String) (ts1 ts2 : Nat) (auth1 auth2 : String)
    (dto : CreatePostDto) :
    (s.filter (fun p => p.slug == slugify dto.title) = [] →
      (BlogService.create f1 ts1 auth1 dto s).1.slug = slugify dto.title
      ∧ (BlogService.create f2 ts2 auth2 dto (BlogService.create f1 ts1 auth1 dto s).2).1.slug
          = slugify dto.title ++ "-" ++ toString ts2
      ∧ (BlogService.create f1 ts1 auth1 dto s).1.slug
          ≠ (BlogService.create f2 ts2 auth2 dto (BlogService.create f1 ts1 auth1 dto s).2).1.slug)
    ∧ (∀ (id : String) (ts : Nat) (dto' : UpdatePostDto) (t : String) (p q : Post),
        s.filter (fun x => x.id == id) = [p] →
        dto'.title = some t →
        s.filter (fun r => r.slug == slugify t && r.id != id) = [q] →
        ((BlogService.update id ts dto' s).1).map Post.slug
          = Except.ok (slugify t ++ "-" ++ toString ts))
    ∧ (∀ (id : String) (ts : Nat) (dto' : UpdatePostDto) (t : String) (p : Post),
        s.filter (fun x => x.id == id) = [p] →
        dto'.title = some t →
        p.slug = slugify t →
        s.filter (fun r => r.slug == slugify t && r.id != id) = [] →
        ((BlogService.update id ts dto' s).1).map Post.slug = Except.ok p.slug) := by
  refine ⟨?_, ?_, ?_⟩
  · intro hfree
    have e1 := blog_create_slug_free f1 ts1 auth1 dto s hfree
    have hsnd : (BlogService.create f1 ts1 auth1 dto s).2
        = s ++ [(BlogService.create f1 ts1 auth1 dto s).1] := rfl
    have hfil : ((BlogService.create f1 ts1 auth1 dto s).2).filter
        (fun p => p.slug == slugify dto.title) = [(BlogService.create f1 ts1 auth1 dto s).1] := by
      rw [hsnd, List.filter_append, hfree, List.nil_append, List.filter_cons]
      simp [e1]
    have e2 := blog_create_slug_taken f2 ts2 auth2 dto
      (BlogService.create f1 ts1 auth1 dto s).2 (BlogService.create f1 ts1 auth1 dto s).1 hfil
    refine ⟨e1, e2, ?_⟩
    rw [e1, e2]
    exact slug_ne_suffixed (slugify dto.title) ts2
  · intro id ts dto' t p q hp ht hq
    simp only [BlogService.update, hp, ht, hq, singleModel, maybeSingleModel]
    rfl
  · intro id ts dto' t p hp ht hslug hfree'
    simp only [BlogService.update, hp, ht, hfree', singleModel, maybeSingleModel]
    show Except.ok (slugify t) = Except.ok p.slug
    rw [hslug]

/-- A creation request with a title whose slug (`nuevo-post`) is free. -/
def exPostDto : CreatePostDto :=
  { title := "Nuevo Post", content := "Contenido del post", image_url := none
    tags := none, status := PostStatus.draft }

/-- An existing post holding the slug `hola-mundo`. -/
def exPostA : Post :=
  { id := "q1", author_id := "au", title := "Hola Mundo", slug := "hola-mundo"
    content := "c", image_url := none, excerpt := "c...", tags := [], published := false }

/-- An existing post with an unrelated slug. -/
def exPostB : Post :=
  { id := "q2", author_id := "au", title := "Otro", slug := "otro"
    content := "c", image_url := none, excerpt := "c...", tags := [], published := false }

/-- A title-only update whose slugified title is `hola-mundo`. -/
def exTitleUpdate : UpdatePostDto :=
  { title := some "Hola Mundo", content := none, image_url := none
    tags := none, status := none }

/-- Witness for C7 on the concrete table `[exPostA, exPostB]`: two
creations of "Nuevo Post" give `nuevo-post` then `nuevo-post-22`;
updating `q2` to "Hola Mundo" collides with `q1` and is suffixed;
updating `q1` to the source text of its own slug keeps `hola-mundo`. -/
theorem blog_slug_collision_resolution_witness :
    ((BlogService.create "p1" 11 "au" exPostDto [exPostA, exPostB]).1.slug = "nuevo-post"
      ∧ (BlogService.create "p2" 22 "au" exPostDto
          (BlogService.create "p1" 11 "au" exPostDto [exPostA, exPostB]).2).1.slug
          = "nuevo-post-22"
      ∧ (BlogService.create "p1" 11 "au" exPostDto [exPostA, exPostB]).1.slug
          ≠ (BlogService.create "p2" 22 "au" exPostDto
              (BlogService.create "p1" 11 "au" exPostDto [exPostA, exPostB]).2).1.slug)
    ∧ ((BlogService.update "q2" 33 exTitleUpdate [exPostA, exPostB]).1).map Post.slug
        = Except.ok "hola-mundo-33"
    ∧ ((BlogService.update "q1" 44 exTitleUpdate [exPostA, exPostB]).1).map Post.slug
        = Except.ok "hola-mundo" := by
  obtain ⟨wa, wb, wc⟩ :=
    blog_slug_collision_resolution [exPostA, exPostB] "p1" "p2" 11 22 "au" "au" exPostDto
  obtain ⟨w1, w2, w3⟩ := wa (by decide)
  refine ⟨⟨w1, w2, w3⟩, ?_, ?_⟩
  · exact wb "q2" 33 exTitleUpdate "Hola Mundo" exPostB exPostA (by decide) rfl (by decide)
  · exact wc "q1" 44 exTitleUpdate "Hola Mundo" exPostA (by decide) rfl (by decide) (by decide)

/-! ## Dashboard service (`DashboardService`, dashboard.service.ts) -/

/-- `DashboardService.getNewUsersStats`, as a function of the two query
results (ids of users created this month / created last month): the count
of this month and the percent change, which is hard-coded to `100` when
last month had zero rows and `(C - P) / P * 100` otherwise. Number
arithmetic is JS float division on exact integer counts, modelled in ℚ. -/
def DashboardService.getNewUsersStats (currentMonthUsers previousMonthUsers : List String) :
    Nat × ℚ :=
  let currentCount := currentMonthUsers.length
  let previousCount := previousMonthUsers.length
  let percentChange : ℚ :=
    if previousCount = 0 then 100
    else ((currentCount : ℚ) - (previousCount : ℚ)) / (previousCount : ℚ) * 100
  (currentCount, percentChange)

/-- **C8**: `percentChange` is 100 whenever the previous month had zero
users (in particular for any positive current count), is `(C-P)/P*100`
whenever the previous month had `P > 0`, and is strictly negative when
`C < P`. -/
theorem getNewUsersStats_percent_change (cu pu : List String) :
    (pu.length = 0 → (DashboardService.getNewUsersStats cu pu).2 = 100)
    ∧ (0 < pu.length →
        (DashboardService.getNewUsersStats cu pu).2
            = ((cu.length : ℚ) - (pu.length : ℚ)) / (pu.length : ℚ) * 100
        ∧ (cu.length < pu.length → (DashboardService.getNewUsersStats cu pu).2 < 0)) := by
  constructor
  · intro h
    simp [DashboardService.getNewUsersStats, h]
  · intro h
    have hne : pu.length ≠ 0 := by omega
    constructor
    · simp [DashboardService.getNewUsersStats, hne]
    · intro hlt
      simp only [DashboardService.getNewUsersStats, hne, if_false, ite_false]
      apply mul_neg_of_neg_of_pos
      · apply div_neg_of_neg_of_pos
        · have hq : (cu.length : ℚ) < (pu.length : ℚ) := by exact_mod_cast hlt
          linarith
        · have hq : (0 : ℚ) < (pu.length : ℚ) := by exact_mod_cast h
          linarith
      · norm_num

/-- Witness for C8: one user this month against zero last month gives 100;
zero this month against one last month gives -100, a negative change. -/
theorem getNewUsersStats_percent_change_witness :
    (DashboardService.getNewUsersStats ["a"] []).2 = 100
    ∧ (DashboardService.getNewUsersStats [] ["a"]).2 = -100
    ∧ (DashboardService.getNewUsersStats [] ["a"]).2 < 0 := by
  refine ⟨(getNewUsersStats_percent_change ["a"] []).1 rfl, ?_, ?_⟩
  · have h := ((getNewUsersStats_percent_change [] ["a"]).2 (by norm_num)).1
    rw [h]
    norm_num
  · exact ((getNewUsersStats_percent_change [] ["a"]).2 (by norm_num)).2 (by norm_num)

/-! ## Notifications service (`NotificationsService`, notifications.service.ts) -/

/-- JS `String.prototype.trim()`: strip whitespace from both ends. -/
def jsTrim (s : String) : String :=
  String.mk (((s.toList.dropWhile (fun c => c.isWhitespace)).reverse.dropWhile
    (fun c => c.isWhitespace)).reverse)

/-- JS `a.startsWith(b)`. -/
def jsStartsWith (s p : String) : Bool :=
  p.toList.isPrefixOf s.toList

/-- JS `s.substring(n)` for `n ≤ s.length`. -/
def jsSubstringFrom (s : String) (n : Nat) : String :=
  String.mk (s.toList.drop n)

/-- The phone-normalization block at the top of
`NotificationsService.sendWhatsApp`; its result is stored as the
notification `recipient` and passed as the provider `to` field. A number
that does not start with `+` gets an Argentine prefix *with* a leading
`+` (`0...` → `+54...`, `15...` → `+549...`, otherwise `+54` is
prepended, or `+` alone when the number already starts with `54`); only a
number that already starts with `+` has that `+` stripped. -/
def NotificationsService.formatWhatsAppPhone (phone : String) : String :=
  let formattedPhone := jsTrim phone
  if !(jsStartsWith formattedPhone "+") then
    if jsStartsWith formattedPhone "0" then
      "+54" ++ jsSubstringFrom formattedPhone 1
    else if jsStartsWith formattedPhone "15" then
      "+549" ++ jsSubstringFrom formattedPhone 2
    else if !(jsStartsWith formattedPhone "54") then
      "+54" ++ formattedPhone
    else
      "+" ++ formattedPhone
  else
    jsSubstringFrom formattedPhone 1

/-- **C6**: the claim (and the code's own comment, "WhatsApp espera el
formato sin el signo +") says the leading `+` is stripped before calling
the provider, but for an input with a leading `0` the computed recipient
is `+54...`, which still starts with `+`: the strip only happens when the
*input* already starts with `+`. -/
theorem sendWhatsApp_recipient_keeps_leading_plus :
    NotificationsService.formatWhatsAppPhone "01112222333" = "+541112222333"
    ∧ jsStartsWith (NotificationsService.formatWhatsAppPhone "01112222333") "+" = true
    ∧ NotificationsService.formatWhatsAppPhone "+541112222333" = "541112222333" := by
  exact ⟨rfl, rfl, rfl⟩

/-! ## Auth service (`AuthService`, auth.service.ts). The bcrypt hash and
compare functions and the JWT signer/verifier are external collaborators,
passed as opaque function parameters. -/

/-- The `users` table row (`User` interface of users.service.ts, the
fields the auth flows read). -/
structure User where
  id : String
  email : String
  password : String
  first_name : String
  last_name : String
  phone : String
  is_admin : Bool
deriving DecidableEq, Repr

/-- The inline user projection that register/login/validateToken put in
their responses: exactly id, email, first_name, last_name, phone,
is_admin — and no password field. -/
structure SafeUser where
  id : String
  email : String
  first_name : String
  last_name : String
  phone : String
  is_admin : Bool
deriving DecidableEq, Repr

/-- Builds the response projection from a stored user. -/
def safeUserView (u : User) : SafeUser :=
  { id := u.id, email := u.email, first_name := u.first_name
    last_name := u.last_name, phone := u.phone, is_admin := u.is_admin }

/-- The register/login response shape: message, safe user view, token. -/
structure AuthResponse where
  message : String
  user : SafeUser
  token : String
deriving DecidableEq, Repr

/-- `RegisterDto` fields the service reads. -/
structure RegisterDto where
  email : String
  password : String
  first_name : String
  last_name : String
  phone : String
deriving DecidableEq, Repr

/-- `LoginDto`. -/
structure LoginDto where
  email : String
  password : String
deriving DecidableEq, Repr

/-- The JWT payload `{ email, sub, is_admin }` built by `generateToken`. -/
structure TokenPayload where
  email : String
  sub : String
  is_admin : Bool
deriving DecidableEq, Repr

/-- The user row `register` inserts: hashed password, `is_admin = false`. -/
def AuthService.newUser (hash : String → String) (fresh : String) (dto : RegisterDto) : User :=
  { id := fresh, email := dto.email, password := hash dto.password
    first_name := dto.first_name, last_name := dto.last_name
    phone := dto.phone, is_admin := false }

/-- `AuthService.register`: 409 when the email is taken
(`findByEmail` = `limit(1)` lookup, modelled as `find?`); otherwise hash
the password, insert the user, sign a token over
`{email, sub := id, is_admin}` and answer with the safe user view. -/
def AuthService.register (hash : String → String)
    (sign : String → String → Bool → String) (fresh : String) (dto : RegisterDto)
    (users : List User) : Except HttpError AuthResponse × List User :=
  match users.find? (fun u => u.email == dto.email) with
  | some _ => (Except.error ⟨409, "Este email ya está registrado"⟩, users)
  | none =>
      let u := AuthService.newUser hash fresh dto
      (Except.ok
        { message := "Usuario registrado correctamente"
          user := safeUserView u
          token := sign u.email u.id u.is_admin },
       users ++ [u])

/-- `AuthService.login`: 401 when the email is unknown or the bcrypt
compare fails; otherwise sign a token and answer with the safe view. -/
def AuthService.login (compare : String → String → Bool)
    (sign : String → String → Bool → String) (dto : LoginDto)
    (users : List User) : Except HttpError AuthResponse :=
  match users.find? (fun u => u.email == dto.email) with
  | none => Except.error ⟨401, "Credenciales inválidas"⟩
  | some u =>
      if compare dto.password u.password then
        Except.ok
          { message := "Inicio de sesión exitoso"
            user := safeUserView u
            token := sign u.email u.id u.is_admin }
      else Except.error ⟨401, "Credenciales inválidas"⟩

/-- `AuthService.validateToken`: verify the token (any verification error
is caught and becomes 401), look up the payload subject, 401 when the user
no longer exists, else answer `{ user: safe view }`. -/
def AuthService.validateToken (verify : String → Option TokenPayload) (token : String)
    (users : List User) : Except HttpError SafeUser :=
  match verify token with
  | none => Except.error ⟨401, "Token inválido o expirado"⟩
  | some payload =>
      match users.find? (fun u => u.id == payload.sub) with
      | none => Except.error ⟨401, "Token inválido o expirado"⟩
      | some u => Except.ok (safeUserView u)

/-- **C10**: every successful register/login/validateToken response carries
exactly the safe projection (id, email, first_name, last_name, phone,
is_admin) of a stored user, and that projection is independent of the
stored password hash, which therefore never appears in the response. -/
theorem auth_responses_expose_only_safe_fields
    (hash : String → String) (sign : String → String → Bool → String)
    (compare : String → String → Bool) (verify : String → Option TokenPayload)
    (fresh token : String) (rdto : RegisterDto) (ldto : LoginDto) (users : List User) :
    (∀ r s', AuthService.register hash sign fresh rdto users = (Except.ok r, s') →
        r.user = safeUserView (AuthService.newUser hash fresh rdto))
    ∧ (∀ r u, users.find? (fun x => x.email == ldto.email) = some u →
        AuthService.login compare sign ldto users = Except.ok r →
        r.user = safeUserView u)
    ∧ (∀ su pl u, verify token = some pl →
        users.find? (fun x => x.id == pl.sub) = some u →
        AuthService.validateToken verify token users = Except.ok su →
        su = safeUserView u)
    ∧ (∀ (u : User) (pw : String), safeUserView { u with password := pw } = safeUserView u) := by
  refine ⟨?_, ?_, ?_, ?_⟩
  · intro r s' h
    unfold AuthService.register at h
    cases hfind : users.find? (fun u => u.email == rdto.email) with
    | some u => rw [hfind] at h; simp at h
    | none =>
        rw [hfind] at h
        simp at h
        rw [← h.1]
  · intro r u hfind h
    unfold AuthService.login at h
    rw [hfind] at h
    have h' : (if compare ldto.password u.password = true then
          Except.ok
            { message := "Inicio de sesión exitoso"
              user := safeUserView u
              token := sign u.email u.id u.is_admin }
        else (Except.error ⟨401, "Credenciales inválidas"⟩ : Except HttpError AuthResponse))
        = Except.ok r := h
    by_cases hc : compare ldto.password u.password = true
    · rw [if_pos hc] at h'
      injection h' with h2
      rw [← h2]
    · rw [if_neg hc] at h'
      simp at h'
  · intro su pl u hv hfind h
    unfold AuthService.validateToken at h
    rw [hv] at h
    have h' : (match users.find? (fun x => x.id == pl.sub) with
        | none => (Except.error ⟨401, "Token inválido o expirado"⟩ : Except HttpError SafeUser)
        | some u => Except.ok (safeUserView u)) = Except.ok su := h
    rw [hfind] at h'
    have h'' : Except.ok (safeUserView u) = Except.ok su := h'
    injection h'' with h3
    exact h3.symm
  · intro u pw
    rfl

/-- A stored user for the auth witnesses. -/
def exAuthUser : User :=
  { id := "u1", email := "ana@olimpo.gym", password := "secreto", first_name := "Ana"
    last_name := "Gomez", phone := "1234", is_admin := false }

/-- A registration request for a fresh email. -/
def exRegDto : RegisterDto :=
  { email := "caro@olimpo.gym", password := "pw", first_name := "Caro"
    last_name := "Diaz", phone := "5678" }

/-- Witness for C10 with concrete hash/sign/compare/verify collaborators:
all three successful responses expose exactly the safe projection, and
the projection ignores the password. -/
theorem auth_responses_expose_only_safe_fields_witness :
    ((AuthService.register (fun p => p) (fun _ _ _ => "tok") "u2" exRegDto [exAuthUser]).1).map
        (fun r => r.user)
      = Except.ok (safeUserView (AuthService.newUser (fun p => p) "u2" exRegDto))
    ∧ (AuthService.login (fun _ _ => true) (fun _ _ _ => "tok")
        { email := "ana@olimpo.gym", password := "pw" } [exAuthUser]).map (fun r => r.user)
      = Except.ok (safeUserView exAuthUser)
    ∧ AuthService.validateToken
        (fun _ => some { email := "ana@olimpo.gym", sub := "u1", is_admin := false })
        "tok" [exAuthUser]
      = Except.ok (safeUserView exAuthUser)
    ∧ safeUserView { exAuthUser with password := "otro" } = safeUserView exAuthUser := by
  obtain ⟨h1, h2, h3, h4⟩ := auth_responses_expose_only_safe_fields
    (fun p => p) (fun _ _ _ => "tok") (fun _ _ => true)
    (fun _ => some { email := "ana@olimpo.gym", sub := "u1", is_admin := false })
    "u2" "tok" exRegDto { email := "ana@olimpo.gym", password := "pw" } [exAuthUser]
  refine ⟨?_, ?_, ?_, h4 exAuthUser "otro"⟩
  · have hr := h1
      { message := "Usuario registrado correctamente"
        user := safeUserView (AuthService.newUser (fun p => p) "u2" exRegDto)
        token := "tok" }
      ([exAuthUser] ++ [AuthService.newUser (fun p => p) "u2" exRegDto]) rfl
    exact congrArg Except.ok hr
  · have hl := h2
      { message := "Inicio de sesión exitoso"
        user := safeUserView exAuthUser
        token := "tok" } exAuthUser rfl rfl
    exact congrArg Except.ok hl
  · have hv := h3 (safeUserView exAuthUser)
      { email := "ana@olimpo.gym", sub := "u1", is_admin := false } exAuthUser rfl rfl rfl
    exact congrArg Except.ok hv

/-! ## Notification templates (`NotificationsService`, template CRUD) -/

/-- `NotificationType` enum of notification.entity.ts. -/
inductive NotificationType
  | EMAIL
  | WHATSAPP
  | SMS
  | PUSH
deriving DecidableEq, Repr, Fintype

/-- A row of the `notification_templates` table. The source column
`variables` is spelled `template_variables` here because `variables` is a
reserved word in Lean. -/
structure NotificationTemplate where
  id : String
  name : String
  description : String
  type : NotificationType
  content : String
  template_variables : List String
  subject : Option String
  is_default : Bool
  whatsapp_template_name : Option String
deriving DecidableEq, Repr

/-- The `createTemplate` input object; `isDefault` is optional and only
`true` (JS truthiness) triggers the unset of other defaults. -/
structure CreateTemplateInput where
  name : String
  description : String
  type : NotificationType
  content : String
  template_variables : List String
  subject : Option String
  isDefault : Option Bool
  whatsappTemplateName : Option String
deriving DecidableEq, Repr

/-- The `updateTemplate` payload: per-field optional; an absent field is
dropped from the JSON body and leaves the column unchanged. `type` is not
part of the payload and can never change. -/
structure UpdateTemplateInput where
  name : Option String
  description : Option String
  content : Option String
  template_variables : Option (List String)
  subject : Option String
  isDefault : Option Bool
  whatsappTemplateName : Option String
deriving DecidableEq, Repr

/-- The row produced by applying an update payload to a stored template. -/
def applyTemplateUpdate (u : UpdateTemplateInput) (x : NotificationTemplate) :
    NotificationTemplate :=
  { x with
    name := u.name.getD x.name
    description := u.description.getD x.description
    content := u.content.getD x.content
    template_variables := u.template_variables.getD x.template_variables
    subject := match u.subject with
      | some v => some v
      | none => x.subject
    is_default := u.isDefault.getD x.is_default
    whatsapp_template_name := match u.whatsappTemplateName with
      | some v => some v
      | none => x.whatsapp_template_name }

/-- `NotificationsService.createTemplate`: when the input is marked
default, first unset `is_default` on every row of the same type that has
it set; then insert the new row with `is_default = isDefault || false`. -/
def NotificationsService.createTemplate (fresh : String) (t : CreateTemplateInput)
    (s : List NotificationTemplate) : NotificationTemplate × List NotificationTemplate :=
  let s1 := if t.isDefault = some true then
      s.map (fun x => if x.type == t.type && x.is_default
        then { x with is_default := false } else x)
    else s
  let row : NotificationTemplate :=
    { id := fresh, name := t.name, description := t.description, type := t.type
      content := t.content, template_variables := t.template_variables, subject := t.subject
      is_default := t.isDefault.getD false
      whatsapp_template_name := t.whatsappTemplateName }
  (row, s1 ++ [row])

/-- `NotificationsService.updateTemplate`: when the payload marks the row
default, fetch the row's type and unset `is_default` on every *other*
(`.neq('id', id)`) default row of that type; then apply the payload to
the row with the matching id. -/
def NotificationsService.updateTemplate (id : String) (u : UpdateTemplateInput)
    (s : List NotificationTemplate) : List NotificationTemplate :=
  let s1 := if u.isDefault = some true then
      match s.find? (fun x => x.id == id) with
      | some cur =>
          s.map (fun x => if x.type == cur.type && x.is_default && x.id != id
            then { x with is_default := false } else x)
      | none => s
    else s
  s1.map (fun x => if x.id == id then applyTemplateUpdate u x else x)

/-- The default row of a given notification type. -/
def isDefaultOfType (ty : NotificationType) (x : NotificationTemplate) : Bool :=
  x.type == ty && x.is_default

/-- At most one template per type has `is_default = true`. -/
def atMostOneDefaultPerType (s : List NotificationTemplate) : Prop :=
  ∀ ty : NotificationType, s.countP (isDefaultOfType ty) ≤ 1

/-- Evaluated form of `createTemplate` for a default-marked input. -/
theorem createTemplate_eval_default (fresh : String) (t : CreateTemplateInput)
    (s : List NotificationTemplate) (ht : t.isDefault = some true) :
    (NotificationsService.createTemplate fresh t s).2
      = (s.map (fun x => if x.type == t.type && x.is_default
            then { x with is_default := false } else x))
        ++ [{ id := fresh, name := t.name, description := t.description, type := t.type
              content := t.content, template_variables := t.template_variables, subject := t.subject
              is_default := t.isDefault.getD false
              whatsapp_template_name := t.whatsappTemplateName }] := by
  unfold NotificationsService.createTemplate
  rw [if_pos ht]

/-- Evaluated form of `createTemplate` for a non-default input. -/
theorem createTemplate_eval_not_default (fresh : String) (t : CreateTemplateInput)
    (s : List NotificationTemplate) (ht : ¬ t.isDefault = some true) :
    (NotificationsService.createTemplate fresh t s).2
      = s ++ [{ id := fresh, name := t.name, description := t.description, type := t.type
                content := t.content, template_variables := t.template_variables, subject := t.subject
                is_default := t.isDefault.getD false
                whatsapp_template_name := t.whatsappTemplateName }] := by
  unfold NotificationsService.createTemplate
  rw [if_neg ht]

/-- Evaluated form of `updateTemplate` when the payload marks the row
default and the row exists. -/
theorem updateTemplate_eval_default_found (id : String) (u : UpdateTemplateInput)
    (s : List NotificationTemplate) (cur : NotificationTemplate)
    (hu : u.isDefault = some true) (hfind : s.find? (fun x => x.id == id) = some cur) :
    NotificationsService.updateTemplate id u s
      = (s.map (fun x => if x.type == cur.type && x.is_default && x.id != id
            then { x with is_default := false } else x)).map
          (fun x => if x.id == id then applyTemplateUpdate u x else x) := by
  unfold NotificationsService.updateTemplate
  rw [if_pos hu, hfind]

/-- Evaluated form of `updateTemplate` when the payload marks the row
default but the row does not exist. -/
theorem updateTemplate_eval_default_missing (id : String) (u : UpdateTemplateInput)
    (s : List NotificationTemplate)
    (hu : u.isDefault = some true) (hfind : s.find? (fun x => x.id == id) = none) :
    NotificationsService.updateTemplate id u s
      = s.map (fun x => if x.id == id then applyTemplateUpdate u x else x) := by
  unfold NotificationsService.updateTemplate
  rw [if_pos hu, hfind]

/-- Evaluated form of `updateTemplate` for a non-default payload. -/
theorem updateTemplate_eval_not_default (id : String) (u : UpdateTemplateInput)
    (s : List NotificationTemplate) (hu : ¬ u.isDefault = some true) :
    NotificationsService.updateTemplate id u s
      = s.map (fun x => if x.id == id then applyTemplateUpdate u x else x) := by
  unfold NotificationsService.updateTemplate
  rw [if_neg hu]

/-- Counting after a rewrite map, bounded by a pointwise implication. -/
theorem countP_map_le_of_imp {α : Type} (p q : α → Bool) (f : α → α) (s : List α)
    (h : ∀ a ∈ s, p (f a) = true → q a = true) :
    (s.map f).countP p ≤ s.countP q := by
  rw [List.countP_map]
  exact List.countP_mono_left h

/-- Counting after a rewrite map that kills the predicate everywhere. -/
theorem countP_map_eq_zero {α : Type} (p : α → Bool) (f : α → α) (s : List α)
    (h : ∀ a ∈ s, ¬ p (f a) = true) :
    (s.map f).countP p = 0 := by
  rw [List.countP_map]
  exact List.countP_eq_zero.mpr h

/-- Counting after a rewrite map, via a pointwise count equality. -/
theorem countP_map_eq_of_eq {α : Type} (p q : α → Bool) (f : α → α) :
    ∀ s : List α, (∀ a ∈ s, p (f a) = q a) → (s.map f).countP p = s.countP q := by
  intro s
  induction s with
  | nil => intro _; rfl
  | cons a tl ih =>
      intro h
      rw [List.map_cons, List.countP_cons, List.countP_cons,
        h a (List.mem_cons_self a tl), ih (fun b hb => h b (List.mem_cons_of_mem a hb))]

/-- With pairwise-distinct ids, at most one row matches a given id. -/
theorem countP_id_le_one (s : List NotificationTemplate) (id : String)
    (hnd : (s.map (fun x => x.id)).Nodup) :
    s.countP (fun x => x.id == id) ≤ 1 := by
  have h1 : (s.map (fun x => x.id)).count id = s.countP (fun x => x.id == id) := by
    show (s.map (fun x => x.id)).countP (· == id) = s.countP (fun x => x.id == id)
    rw [List.countP_map]
    rfl
  rw [← h1]
  exact List.nodup_iff_count_le_one.mp hnd id

/-- **C9**: starting from a table with pairwise-distinct ids and at most
one default per type, both `createTemplate` and `updateTemplate` preserve
"at most one `is_default = true` template per type": marking a template as
default first unsets every other default of the same type. -/
theorem template_default_uniqueness_invariant
    (s : List NotificationTemplate) (fresh id : String)
    (t : CreateTemplateInput) (u : UpdateTemplateInput)
    (hnd : (s.map (fun x => x.id)).Nodup)
    (hinv : atMostOneDefaultPerType s) :
    atMostOneDefaultPerType (NotificationsService.createTemplate fresh t s).2
    ∧ atMostOneDefaultPerType (NotificationsService.updateTemplate id u s) := by
  constructor
  · intro ty
    by_cases ht : t.isDefault = some true
    · rw [createTemplate_eval_default fresh t s ht, List.countP_append]
      by_cases hty : ty = t.type
      · rw [hty]
        have hz : (s.map (fun x => if x.type == t.type && x.is_default
              then { x with is_default := false } else x)).countP (isDefaultOfType t.type) = 0 := by
          apply countP_map_eq_zero
          intro a _
          by_cases hd : (a.type == t.type && a.is_default) = true
          · simp [hd, isDefaultOfType]
          · simp only [hd, if_false, ite_false]
            exact hd
        rw [hz, List.countP_singleton]
        split <;> simp
      · have he : (s.map (fun x => if x.type == t.type && x.is_default
              then { x with is_default := false } else x)).countP (isDefaultOfType ty)
            = s.countP (isDefaultOfType ty) := by
          apply countP_map_eq_of_eq
          intro a _
          by_cases hd : (a.type == t.type && a.is_default) = true
          · have hparts := (Bool.and_eq_true _ _).mp hd
            have hat : a.type = t.type := eq_of_beq hparts.1
            have had : a.is_default = true := hparts.2
            have htyf : (t.type == ty) = false := beq_eq_false_iff_ne.mpr (Ne.symm hty)
            simp [hd, isDefaultOfType, hat, had, htyf]
          · simp [hd]
        have hrow : isDefaultOfType ty
            { id := fresh, name := t.name, description := t.description, type := t.type
              content := t.content, template_variables := t.template_variables, subject := t.subject
              is_default := t.isDefault.getD false
              whatsapp_template_name := t.whatsappTemplateName } = false := by
          simp [isDefaultOfType, Ne.symm hty]
        rw [he, List.countP_cons, List.countP_nil, hrow]
        simpa using hinv ty
    · rw [createTemplate_eval_not_default fresh t s ht, List.countP_append]
      have hfalse : t.isDefault.getD false = false := by
        cases hb : t.isDefault with
        | none => rfl
        | some b =>
            cases b with
            | false => rfl
            | true => exact absurd hb ht
      have hrow : isDefaultOfType ty
          { id := fresh, name := t.name, description := t.description, type := t.type
            content := t.content, template_variables := t.template_variables, subject := t.subject
            is_default := t.isDefault.getD false
            whatsapp_template_name := t.whatsappTemplateName } = false := by
        simp [isDefaultOfType, hfalse]
      rw [List.countP_cons, List.countP_nil, hrow]
      simpa using hinv ty
  · intro ty
    by_cases hu : u.isDefault = some true
    · cases hfind : s.find? (fun x => x.id == id) with
      | some cur =>
          rw [updateTemplate_eval_default_found id u s cur hu hfind, List.map_map]
          have hcurmem : cur ∈ s := List.mem_of_find?_eq_some hfind
          have hcurid := List.find?_some hfind
          by_cases hty : ty = cur.type
          · subst hty
            have hb := countP_map_le_of_imp (isDefaultOfType cur.type)
              (fun x => x.id == id)
              ((fun x => if x.id == id then applyTemplateUpdate u x else x) ∘
                (fun x => if x.type == cur.type && x.is_default && x.id != id
                  then { x with is_default := false } else x)) s ?_
            · exact le_trans hb (countP_id_le_one s id hnd)
            · intro a _
              by_cases hid : (a.id == id) = true
              · intro _; exact hid
              · intro hcon
                exfalso
                have hbne : (a.id != id) = true := by simp [bne, hid]
                by_cases hd : (a.type == cur.type && a.is_default) = true
                · rw [Function.comp_apply] at hcon
                  rw [show (if a.type == cur.type && a.is_default && a.id != id
                      then { a with is_default := false } else a)
                      = { a with is_default := false } from by simp [hd, hbne]] at hcon
                  simp [hid, isDefaultOfType] at hcon
                · rw [Function.comp_apply] at hcon
                  have hcnot : ¬ ((a.type == cur.type && a.is_default && a.id != id) = true) := by
                    intro hc
                    have h1 := (Bool.and_eq_true _ _).mp hc
                    exact hd h1.1
                  rw [show (if a.type == cur.type && a.is_default && a.id != id
                      then { a with is_default := false } else a) = a from by
                    simp [hcnot]] at hcon
                  simp only [hid, if_false, ite_false] at hcon
                  exact hd (by simpa [isDefaultOfType] using hcon)
          · have hb := countP_map_le_of_imp (isDefaultOfType ty)
              (isDefaultOfType ty)
              ((fun x => if x.id == id then applyTemplateUpdate u x else x) ∘
                (fun x => if x.type == cur.type && x.is_default && x.id != id
                  then { x with is_default := false } else x)) s ?_
            · exact le_trans hb (hinv ty)
            · intro a ha
              by_cases hid : (a.id == id) = true
              · intro hcon
                exfalso
                have haeq : a = cur := by
                  apply List.inj_on_of_nodup_map hnd ha hcurmem
                  have h1 : a.id = id := eq_of_beq hid
                  have h2 : cur.id = id := eq_of_beq hcurid
                  rw [h1, h2]
                subst haeq
                have hnb : (a.id != id) = false := by simp [bne, hid]
                rw [Function.comp_apply] at hcon
                rw [show (if a.type == a.type && a.is_default && a.id != id
                    then { a with is_default := false } else a) = a from by simp [hnb]] at hcon
                rw [show (if a.id == id then applyTemplateUpdate u a else a)
                    = applyTemplateUpdate u a from by simp [hid]] at hcon
                have htyf : (a.type == ty) = false := by
                  simp only [beq_eq_false_iff_ne]
                  exact fun hc => hty (hc ▸ rfl)
                simp [isDefaultOfType, applyTemplateUpdate, htyf] at hcon
              · intro hcon
                have hbne : (a.id != id) = true := by simp [bne, hid]
                by_cases hd : (a.type == cur.type && a.is_default) = true
                · rw [Function.comp_apply] at hcon
                  rw [show (if a.type == cur.type && a.is_default && a.id != id
                      then { a with is_default := false } else a)
                      = { a with is_default := false } from by simp [hd, hbne]] at hcon
                  simp [hid, isDefaultOfType] at hcon
                · rw [Function.comp_apply] at hcon
                  have hcnot : ¬ ((a.type == cur.type && a.is_default && a.id != id) = true) := by
                    intro hc
                    have h1 := (Bool.and_eq_true _ _).mp hc
                    exact hd h1.1
                  rw [show (if a.type == cur.type && a.is_default && a.id != id
                      then { a with is_default := false } else a) = a from by
                    simp [hcnot]] at hcon
                  simpa [hid] using hcon
      | none =>
          rw [updateTemplate_eval_default_missing id u s hu hfind]
          have hnone : ∀ x ∈ s, ¬ ((fun x => x.id == id) x = true) :=
            List.find?_eq_none.mp hfind
          have he : (s.map (fun x => if x.id == id then applyTemplateUpdate u x else x)).countP
              (isDefaultOfType ty) = s.countP (isDefaultOfType ty) := by
            apply countP_map_eq_of_eq
            intro a ha
            have hid : ¬ ((a.id == id) = true) := hnone a ha
            simp [hid]
          rw [he]
          exact hinv ty
    · rw [updateTemplate_eval_not_default id u s hu]
      have hb := countP_map_le_of_imp (isDefaultOfType ty) (isDefaultOfType ty)
        (fun x => if x.id == id then applyTemplateUpdate u x else x) s ?_
      · exact le_trans hb (hinv ty)
      · intro a _
        by_cases hid : (a.id == id) = true
        · intro hcon
          have hcon' : isDefaultOfType ty
              (if (a.id == id) = true then applyTemplateUpdate u a else a) = true := hcon
          rw [show (if (a.id == id) = true then applyTemplateUpdate u a else a)
              = applyTemplateUpdate u a from by simp [hid]] at hcon'
          cases hbu : u.isDefault with
          | none =>
              simpa [isDefaultOfType, applyTemplateUpdate, hbu] using hcon'
          | some b =>
              cases b with
              | true => exact absurd hbu hu
              | false =>
                  rw [show applyTemplateUpdate u a
                      = { applyTemplateUpdate u a with is_default := false } from by
                    simp [applyTemplateUpdate, hbu]] at hcon'
                  simp [isDefaultOfType] at hcon'
        · intro hcon
          have hcon' : isDefaultOfType ty
              (if (a.id == id) = true then applyTemplateUpdate u a else a) = true := hcon
          rw [show (if (a.id == id) = true then applyTemplateUpdate u a else a) = a from by
            simp [hid]] at hcon'
          exact hcon'

/-- The current default WhatsApp template. -/
def exTemplA : NotificationTemplate :=
  { id := "t1", name := "expiracion", description := "d", type := NotificationType.WHATSAPP
    content := "c", template_variables := [], subject := none, is_default := true
    whatsapp_template_name := none }

/-- A non-default WhatsApp template. -/
def exTemplB : NotificationTemplate :=
  { id := "t2", name := "renovacion", description := "d", type := NotificationType.WHATSAPP
    content := "c", template_variables := [], subject := none, is_default := false
    whatsapp_template_name := none }

/-- A creation input marked as default. -/
def exCreateTempl : CreateTemplateInput :=
  { name := "nueva", description := "d", type := NotificationType.WHATSAPP
    content := "c", template_variables := [], subject := none, isDefault := some true
    whatsappTemplateName := none }

/-- An update payload that marks the target row as default. -/
def exUpdateTempl : UpdateTemplateInput :=
  { name := none, description := none, content := none, template_variables := none
    subject := none, isDefault := some true, whatsappTemplateName := none }

/-- Witness for C9: on a concrete table already holding one default
WhatsApp template, creating a new default template and promoting the
non-default row both leave at most one default per type. -/
theorem template_default_uniqueness_invariant_witness :
    atMostOneDefaultPerType
      (NotificationsService.createTemplate "t3" exCreateTempl [exTemplA, exTemplB]).2
    ∧ atMostOneDefaultPerType
      (NotificationsService.updateTemplate "t2" exUpdateTempl [exTemplA, exTemplB]) := by
  exact template_default_uniqueness_invariant [exTemplA, exTemplB] "t3" "t2"
    exCreateTempl exUpdateTempl (by decide)
    (by
      show ∀ ty : NotificationType,
        List.countP (isDefaultOfType ty) [exTemplA, exTemplB] ≤ 1
      decide)

end Olimpo
